import Mathlib

/-!
Verification of the rooms-service core: a shallow embedding of the
transactional room-creation workflow, the outbox dispatcher/cleaner and the
permission resolver, with theorems settling the specification claims.

Conventions of the embedding:
* UUID values are modelled as `Nat`; wall-clock instants as `Nat`.
* Database tables are lists of row structures; SQL statements become list
  operations that follow the source statements clause by clause.
* Fallible Python code returns `Except PyErr`; an operation that can leave
  the database mutated on failure carries the resulting table state in the
  error.
-/

namespace RoomsService

/-- Python-level errors raised by the service, including the exception
classes declared in core/exceptions.py. -/
inductive PyErr
  | valueError
  | typeError
  | attributeError
  | validationError
  | conflictError
  | creationError
  | readingError
  | updateError
  | deletionError
  | publishError
deriving DecidableEq

/-- RoomType from core/constants.py. -/
inductive RoomType
  | direct
  | group
  | channel
deriving DecidableEq

/-- RoomVisibility from core/constants.py ("public" / "private" / "deleted" /
"banned"; the first two are spelled `publicV` / `privateV` because of Lean
keywords). -/
inductive RoomVisibility
  | publicV
  | privateV
  | deleted
  | banned
deriving DecidableEq

/-- EventStatus from core/constants.py. -/
inductive EventStatus
  | new
  | pending
  | done
  | failed
deriving DecidableEq, BEq

/-- SystemRole from core/constants.py. -/
inductive SystemRole
  | owner
  | admin
  | moderator
  | member
  | guest
  | reader
  | bot
deriving DecidableEq

/-- String value of a SystemRole member (it is a StrEnum in the source). -/
def SystemRole.value : SystemRole → String
  | .owner => "owner"
  | .admin => "admin"
  | .moderator => "moderator"
  | .member => "member"
  | .guest => "guest"
  | .reader => "reader"
  | .bot => "bot"

/-- MemberPermissionStatus from domain/value_objects.py. -/
inductive MemberPermissionStatus
  | grant
  | deny
deriving DecidableEq, BEq

/-- MAX_OUTBOX_RETRIES from core/constants.py. -/
def MAX_OUTBOX_RETRIES : Nat := 5

/-- OUTBOX_PROCESSOR_BATCH_SIZE from services.py. -/
def OUTBOX_PROCESSOR_BATCH_SIZE : Nat := 32

/-- OUTBOX_PROCESSOR_STATUSES from services.py. -/
def OUTBOX_PROCESSOR_STATUSES : List EventStatus := [EventStatus.new, EventStatus.pending]

/-- OUTBOX_CLEANUP_STATUSES from services.py. -/
def OUTBOX_CLEANUP_STATUSES : List EventStatus := [EventStatus.failed]

/-- TYPE_TO_SYSTEM_ROLE_MAP from core/constants.py (handlers.py refers to the
same dictionary under the name ROOM_TYPE_TO_SYSTEM_ROLE_MAP). -/
def TYPE_TO_SYSTEM_ROLE_MAP : RoomType → SystemRole
  | RoomType.direct => SystemRole.member
  | RoomType.group => SystemRole.member
  | RoomType.channel => SystemRole.guest

/-- get_default_system_role_by_room from domain/rules.py: a dictionary lookup
keyed by the room type. -/
def get_default_system_role_by_room : RoomType → SystemRole
  | RoomType.direct => SystemRole.member
  | RoomType.group => SystemRole.member
  | RoomType.channel => SystemRole.guest

/-- total_pages from core/utils.py (services.py calls it to derive the number
of dispatcher pages): ceiling division written exactly as in the source. -/
def total_pages (total_count : Nat) (limit : Nat) : Nat :=
  if total_count % limit ≠ 0 then total_count / limit + 1 else total_count / limit

/-! Python `match` patterns occurring in `Room._define_default_role`
(domain/aggragates.py). The first case of that match is written
`case RoomType.DIRECT, RoomType.GROUP:`, which is a sequence (2-tuple)
pattern, and the second is `case RoomType.CHANNEL:`, a value pattern. -/

/-- The two pattern shapes used by the match statement in
`Room._define_default_role`. -/
inductive PyPattern
  | seqPair (a b : RoomType)
  | value (a : RoomType)

/-- PEP 634 matching of one RoomType subject: a sequence pattern never
matches a `str`-derived subject (RoomType is a StrEnum, hence a `str`
subclass, which sequence patterns explicitly exclude), while a value pattern
matches by equality. -/
def pyPatternMatches (subject : RoomType) : PyPattern → Bool
  | PyPattern.seqPair _ _ => false
  | PyPattern.value a => subject == a

/-- Room._define_default_role from domain/aggragates.py, case by case: the
guard of each branch is the Python pattern-match test; when no case matches,
the Python function falls off the end and returns None. -/
def Room_define_default_role (type : RoomType) : Option SystemRole :=
  if pyPatternMatches type (PyPattern.seqPair RoomType.direct RoomType.group) then
    some SystemRole.member
  else if pyPatternMatches type (PyPattern.value RoomType.channel) then
    some SystemRole.guest
  else
    none

/-- CPython call of the staticmethod `_define_default_role` inside
`Room.create` (domain/aggragates.py line 86): the signature requires the
positional argument `type`, so the argument slot is modelled as `Option`;
calling with the argument missing raises TypeError before the body runs. -/
def call_define_default_role : Option RoomType → Except PyErr (Option SystemRole)
  | none => Except.error PyErr.typeError
  | some t => Except.ok (Room_define_default_role t)

/-- CreateRoomCommand field record from core/commands.py (pre-validation). -/
structure CreateRoomCommand where
  creator_by : Nat
  name : Option String
  slug : Option String
  type : RoomType
  visibility : RoomVisibility
  initial_users : List Nat
deriving DecidableEq

/-- CreateRoomCommand.validate_initial_users from core/commands.py: the
`mode="after"` model validator pydantic runs at construction; its ValueError
surfaces as a pydantic ValidationError, so an invalid command value is never
handed to any handler. -/
def CreateRoomCommand.validate_initial_users (c : CreateRoomCommand) :
    Except PyErr CreateRoomCommand :=
  if c.type = RoomType.direct ∧ c.initial_users.length ≠ 1 then
    Except.error PyErr.validationError
  else
    Except.ok c

/-- Room aggregate record built by `Room.create` in domain/aggragates.py
(metadata that no claim touches — settings, accumulated events — is elided);
`roles` holds the registry entries referenced by the construction, which may
be None because `_define_default_role` can return None. -/
structure AggRoom where
  id : Nat
  created_by : Nat
  type : RoomType
  name : Option String
  slug : Option String
  visibility : RoomVisibility
  member_count : Nat
  roles : List (Option SystemRole)
deriving DecidableEq

/-- Room.create from domain/aggragates.py: the constructor argument list
evaluates `member_count=len(command.initial_users) + 1` and
`roles=[ROLES_REGISTRY[SystemRole.OWNER], cls._define_default_role()]`; the
nested call passes no argument for the required positional `type`. -/
def Room_create (gen_id : Nat) (command : CreateRoomCommand) (created_by : Nat) :
    Except PyErr AggRoom :=
  match call_define_default_role none with
  | Except.error e => Except.error e
  | Except.ok dflt =>
      Except.ok {
        id := gen_id
        created_by := created_by
        type := command.type
        name := command.name
        slug := command.slug
        visibility := command.visibility
        member_count := command.initial_users.length + 1
        roles := [some SystemRole.owner, dflt] }

/-- OutboxEvent pydantic model from core/events.py (payload is opaque). -/
structure OutboxEvent where
  event_id : Nat
  event_type : String
  event_status : EventStatus
  created_at : Nat
  aggregate_id : Nat
  aggregate_type : String
  payload : Nat
  retries : Nat
deriving DecidableEq

/-- OutboxEvent.dedup_key from core/events.py: the computed field formats
`f"{time.time()}-{self.aggregate_type}-{self.aggregate_id}"`; `time.time()`
reads the wall clock at each property access, so the result is a function of
the clock value `now` at the access, not of the stored `created_at`. -/
def OutboxEvent.dedup_key (now : Nat) (e : OutboxEvent) : String :=
  toString now ++ "-" ++ e.aggregate_type ++ "-" ++ toString e.aggregate_id

/-- OutboxEvent.partition_key from core/events.py. -/
def OutboxEvent.partition_key (e : OutboxEvent) : String :=
  e.aggregate_type ++ "-" ++ toString e.aggregate_id

/-! The outbox_events table (database/outbox.py). A row carries both the
surrogate primary-key column `id` inherited from `Base` (database/base.py,
filled by an independent uuid4 default) and the `event_id` column coming from
the pydantic schema; the two are distinct draws. -/

/-- One row of the outbox_events table. -/
structure OutboxRow where
  id : Nat
  event_id : Nat
  aggregate_id : Nat
  aggregate_type : String
  event_status : EventStatus
  retries : Nat
  created_at : Nat
  payload : Nat
deriving DecidableEq

/-- Insertion step for ORDER BY created_at (ascending, stable). -/
def insertByCreatedAt (r : OutboxRow) : List OutboxRow → List OutboxRow
  | [] => [r]
  | x :: xs =>
      if r.created_at < x.created_at then r :: x :: xs else x :: insertByCreatedAt r xs

/-- ORDER BY created_at ascending over a table, as a stable insertion sort. -/
def sortByCreatedAt : List OutboxRow → List OutboxRow
  | [] => []
  | x :: xs => insertByCreatedAt x (sortByCreatedAt xs)

/-- SQLOutboxRepository.get_count_by_status: SELECT count(*) WHERE
event_status IN statuses. -/
def get_count_by_status (statuses : List EventStatus) (s : List OutboxRow) : Nat :=
  (s.filter (fun r => statuses.contains r.event_status)).length

/-- SQLOutboxRepository.get_by_status: SELECT ... WHERE event_status IN
statuses ORDER BY created_at OFFSET (page-1)*limit LIMIT limit. -/
def get_by_status (statuses : List EventStatus) (limit page : Nat) (s : List OutboxRow) :
    List OutboxRow :=
  ((sortByCreatedAt (s.filter (fun r => statuses.contains r.event_status))).drop
      ((page - 1) * limit)).take limit

/-- set_failed_status_after_update from database/outbox.py: the listener
registered for the "after_update" event of OutboxEventModel, applied to a row
after an update touches it. -/
def set_failed_status_after_update (target : OutboxRow) : OutboxRow :=
  if MAX_OUTBOX_RETRIES ≤ target.retries ∧ target.event_status ≠ EventStatus.failed then
    { target with event_status := EventStatus.failed }
  else
    target

/-- A value of the variadic `*args` of SQLOutboxRepository.bulk_update.
OutboxProcessor.process passes the whole `statuses` list as ONE positional
argument, so an element of `args` is either a single kwargs mapping (the
per-row shape bulk_update zips against ids) or a whole Python list of such
mappings (the shape the dispatcher actually hands over). -/
inductive UpdateArg
  | mapping (event_status : EventStatus)
  | mappingList (event_statuses : List EventStatus)
deriving DecidableEq

/-- One UPDATE statement of the bulk_update loop: UPDATE ... WHERE
event_id = id SET event_status, retries = retries + retries_counter; the
after_update listener runs on each touched row. -/
def applyRowUpdate (id : Nat) (newStatus : EventStatus) (retries_counter : Nat)
    (s : List OutboxRow) : List OutboxRow :=
  s.map (fun r =>
    if r.event_id == id then
      set_failed_status_after_update
        { r with event_status := newStatus, retries := r.retries + retries_counter }
    else r)

/-- The statement loop of bulk_update over `zip(ids, args, strict=False)`:
a `mapping` element updates its row; a `mappingList` element makes
`update().values(kwargs, retries=...)` receive a Python list where a mapping
is required, which raises inside SQLAlchemy (`none` result). -/
def runUpdates : List (Nat × UpdateArg) → Nat → List OutboxRow → Option (List OutboxRow)
  | [], _, s => some s
  | (id, UpdateArg.mapping st) :: rest, c, s =>
      runUpdates rest c (applyRowUpdate id st c s)
  | (_, UpdateArg.mappingList _) :: _, _, _ => none

/-- SQLOutboxRepository.bulk_update: guards `len(ids) != len(args)` with
ValueError; computes `retries_counter = 1 if not increase_retries else 0`
(so the default `increase_retries=True` adds 0); runs the statement loop and
commits, or rolls back to the entry state on a SQLAlchemy error. The error
carries the table state visible afterwards. -/
def bulk_update (ids : List Nat) (args : List UpdateArg) (increase_retries : Bool)
    (s : List OutboxRow) : Except (PyErr × List OutboxRow) (List OutboxRow) :=
  if ids.length ≠ args.length then
    Except.error (PyErr.valueError, s)
  else
    match runUpdates (ids.zip args) (if increase_retries = false then 1 else 0) s with
    | some updated => Except.ok updated
    | none => Except.error (PyErr.updateError, s)

/-- SQLOutboxRepository.bulk_delete: DELETE ... WHERE id IN ids — the WHERE
clause filters on the surrogate primary-key column `id` inherited from Base,
not on `event_id`. -/
def bulk_delete (ids : List Nat) (s : List OutboxRow) : List OutboxRow :=
  s.filter (fun r => !(ids.contains r.id))

/-- The page loop of OutboxProcessor.process over pages `1..pages`: fetch the
page, publish its payloads; on success delete by the collected event_ids; on
FastStreamException build one `{"event_status": PENDING}` mapping per event
and call `bulk_update(event_ids, statuses)` — passing the list as a single
positional argument. Errors other than the publisher's escape the loop. -/
def processLoop (pub : List Nat → Bool) :
    List Nat → List OutboxRow → Option PyErr × List OutboxRow
  | [], s => (none, s)
  | page :: rest, s =>
      let outbox_events := get_by_status OUTBOX_PROCESSOR_STATUSES
        OUTBOX_PROCESSOR_BATCH_SIZE page s
      let event_ids := outbox_events.map (fun r => r.event_id)
      if pub (outbox_events.map (fun r => r.payload)) then
        processLoop pub rest (bulk_delete event_ids s)
      else
        let statuses := outbox_events.map (fun _ => EventStatus.pending)
        match bulk_update event_ids [UpdateArg.mappingList statuses] true s with
        | Except.ok updated => processLoop pub rest updated
        | Except.error (e, after) => (some e, after)

/-- OutboxProcessor.process (services.py): one dispatcher cycle. `pub`
answers whether `publisher.publish` succeeds on a batch of payloads. -/
def process (pub : List Nat → Bool) (s : List OutboxRow) :
    Option PyErr × List OutboxRow :=
  let count := get_count_by_status OUTBOX_PROCESSOR_STATUSES s
  let pages := total_pages count OUTBOX_PROCESSOR_BATCH_SIZE
  if pages = 0 then (none, s) else processLoop pub (List.range' 1 pages) s

/-- The page loop of OutboxCleaner.cleanup: fetch a page of failed events and
bulk_delete the collected event_ids. -/
def cleanupLoop : List Nat → List OutboxRow → List OutboxRow
  | [], s => s
  | page :: rest, s =>
      let outbox_events := get_by_status OUTBOX_CLEANUP_STATUSES
        OUTBOX_PROCESSOR_BATCH_SIZE page s
      cleanupLoop rest (bulk_delete (outbox_events.map (fun r => r.event_id)) s)

/-- OutboxCleaner.cleanup (services.py): one cleaner cycle. -/
def cleanup (s : List OutboxRow) : List OutboxRow :=
  let count := get_count_by_status OUTBOX_CLEANUP_STATUSES s
  let pages := total_pages count OUTBOX_PROCESSOR_BATCH_SIZE
  if pages = 0 then s else cleanupLoop (List.range' 1 pages) s

/-! Permission resolution (services.py PermissionService together with
database/repository.py). -/

/-- Member schema from core/domain.py (fields the resolver touches). -/
structure Member where
  id : Nat
  user_id : Nat
  room_id : Nat
  role_id : Nat
deriving DecidableEq

/-- Permission pydantic model from core/domain.py: an unfrozen BaseModel
(it defines __eq__ but no __hash__), carrying the code string inside the
object. -/
structure Permission where
  id : Nat
  code : String
  category : String
deriving DecidableEq, BEq

/-- One member_permissions row (database/models.py MemberPermissionModel):
a per-member override, joined to its Permission, with a grant/deny status
column of SQL type varchar. -/
structure MemberPermissionRow where
  member_id : Nat
  permission : Permission
  status : MemberPermissionStatus
deriving DecidableEq

/-- The tables the permission resolver reads: members, the role-to-permission
join behind SQLRoleRepository.get_permissions, and the member overrides. -/
structure PermissionDB where
  members : List Member
  role_permissions : List (Nat × Permission)
  member_permissions : List MemberPermissionRow
deriving DecidableEq

/-- SQLMemberRepository.get_by_room_and_user: the row matching both ids (the
table is unique per (user_id, room_id)). -/
def get_by_room_and_user (db : PermissionDB) (room_id user_id : Nat) : Option Member :=
  db.members.find? (fun m => m.room_id == room_id && m.user_id == user_id)

/-- SQLRoleRepository.get_permissions: the Permission model objects joined to
the role — the repository validates whole PermissionModel rows into pydantic
Permission objects, not into code strings. -/
def SQLRoleRepository_get_permissions (db : PermissionDB) (role_id : Nat) :
    List Permission :=
  (db.role_permissions.filter (fun rp => rp.fst == role_id)).map Prod.snd

/-- Shape of the WHERE expression SQLMemberRepository.get_permissions builds:
sub-expressions are a varchar column reference, a column-equals-parameter
comparison, a SQL AND, and an expression-equals-string-literal comparison. -/
inductive SqlExpr
  | col (name : String)
  | eqParam (name : String) (v : Nat)
  | and2 (a b : SqlExpr)
  | eqStr (a : SqlExpr) (v : String)
deriving DecidableEq

/-- SQL result types relevant to that clause. -/
inductive SqlType
  | boolean
  | varchar
deriving DecidableEq

/-- Postgres typing of such an expression: AND demands boolean operands and a
string literal compares against varchar; an ill-typed expression (none) makes
the statement fail in the driver instead of producing rows. -/
def sqlTypeOf : SqlExpr → Option SqlType
  | SqlExpr.col _ => some SqlType.varchar
  | SqlExpr.eqParam _ _ => some SqlType.boolean
  | SqlExpr.and2 a b =>
      match sqlTypeOf a, sqlTypeOf b with
      | some SqlType.boolean, some SqlType.boolean => some SqlType.boolean
      | _, _ => none
  | SqlExpr.eqStr a _ =>
      match sqlTypeOf a with
      | some SqlType.varchar => some SqlType.boolean
      | _ => none

/-- The WHERE clause of SQLMemberRepository.get_permissions as the source
parses: Python `&` binds tighter than `==`, so
`(member_id == id) & status == GRANT` is
((member_id = :id AND status) = 'grant') — the AND of a boolean with the
varchar status column, compared to a string. -/
def member_permissions_where (id : Nat) : SqlExpr :=
  SqlExpr.eqStr
    (SqlExpr.and2 (SqlExpr.eqParam "member_id" id) (SqlExpr.col "status")) "grant"

/-- SQLMemberRepository.get_permissions: executing the SELECT is only
possible when its WHERE clause types as boolean; the mis-parenthesised clause
above does not, the driver raises, and the except-clause re-raises
ReadingError. The well-typed branch keeps the member_id restriction, the
only conjunct that types on its own; it is unreachable for this clause. -/
def SQLMemberRepository_get_permissions (db : PermissionDB) (id : Nat) :
    Except PyErr (List Permission) :=
  if sqlTypeOf (member_permissions_where id) = some SqlType.boolean then
    Except.ok ((db.member_permissions.filter (fun mp => mp.member_id == id)).map
      (fun mp => mp.permission))
  else
    Except.error PyErr.readingError

/-- A Python value flowing through the set union in has_permission: a
Permission model object fetched from a repository, or the PermissionCode
string under test (a str subclass). -/
inductive PyValue
  | permissionObj (p : Permission)
  | strValue (s : String)
deriving DecidableEq

/-- Unhashable Python values: pydantic model instances are not frozen, so
they define no __hash__; strings hash fine. -/
def isUnhashable : PyValue → Bool
  | PyValue.permissionObj _ => true
  | PyValue.strValue _ => false

/-- Python set() of a list of values: hashing each element — a list holding
any unhashable element raises TypeError; set() of an empty list succeeds. -/
def pySet (vs : List PyValue) : Except PyErr (List PyValue) :=
  if vs.any isUnhashable then Except.error PyErr.typeError else Except.ok vs

/-- Python equality as the membership test uses it: a PermissionCode string
never equals a pydantic Permission object. -/
def pyEq : PyValue → PyValue → Bool
  | PyValue.strValue a, PyValue.strValue b => a == b
  | PyValue.permissionObj a, PyValue.permissionObj b => a == b
  | _, _ => false

/-- PermissionService.has_permission (services.py): locate the membership
(False when absent); fetch the role's Permission objects and the member's
overrides; build set(role_permissions).union(set(member_permissions)); test
`permission_code in all_permissions`. The union is modelled as the
concatenation of the two set element lists, which the final membership scan
consumes. Any raise along the way propagates to the caller. -/
def has_permission (db : PermissionDB) (room_id user_id : Nat)
    (permission_code : String) : Except PyErr Bool :=
  match get_by_room_and_user db room_id user_id with
  | none => Except.ok false
  | some member =>
      let role_permissions := SQLRoleRepository_get_permissions db member.role_id
      match SQLMemberRepository_get_permissions db member.id with
      | Except.error e => Except.error e
      | Except.ok member_permissions =>
          match pySet (role_permissions.map PyValue.permissionObj) with
          | Except.error e => Except.error e
          | Except.ok set1 =>
              match pySet (member_permissions.map PyValue.permissionObj) with
              | Except.error e => Except.error e
              | Except.ok set2 =>
                  Except.ok
                    ((set1 ++ set2).any (pyEq (PyValue.strValue permission_code)))

/-! The aggregate-creation orchestrator: CreateRoomCommandHandler.handle
(handlers.py) running inside SQLUnitOfWork.transaction (database/uow.py) with
the commit/rollback policy of UnitOfWork.__aexit__ (core/base.py). Repository
statements either mutate the pending transaction state or raise; the
transaction wrapper makes pending writes durable only on a clean exit. -/

/-- Room schema from core/domain.py (fields the creation workflow touches;
the model has no member_count field). -/
structure Room where
  id : Nat
  created_by : Nat
  type : RoomType
  name : Option String
  slug : Option String
  visibility : RoomVisibility
  created_at : Nat
deriving DecidableEq

/-- One row of the roles table read by SQLRoleRepository.get_by_name. -/
structure RoleRow where
  id : Nat
  name : String
deriving DecidableEq

/-- The tables the creation workflow writes or reads. -/
structure DBState where
  rooms : List Room
  roles : List RoleRow
  members : List Member
  outbox : List OutboxRow
deriving DecidableEq

/-- Values the runtime draws during one handle() call (uuid4 defaults and
current_datetime); member k of the bulk insert draws id member_id_base + k. -/
structure Gen where
  room_id : Nat
  now : Nat
  member_id_base : Nat
  event_id : Nat
  outbox_row_id : Nat
  payload : Nat
deriving DecidableEq

/-- Storage-failure injection for the fallible statements of the orchestrated
transaction: each field carries the error the corresponding statement raises,
or none when it succeeds. Role resolution fails on its own when the looked-up
role is absent (get_by_name returns None and the handler dereferences .id). -/
structure Faults where
  room_insert : Option PyErr
  member_bulk_insert : Option PyErr
  role_permissions_read : Option PyErr
  outbox_insert : Option PyErr
deriving DecidableEq

/-- SQLRoleRepository.get_by_name over the roles table. -/
def get_by_name (roles : List RoleRow) (name : String) : Option RoleRow :=
  roles.find? (fun r => r.name == name)

/-- Room.model_validate in the handler: fields come from created_by plus the
command dump; the validate_name model validator rejects a direct room with a
non-null name. -/
def Room_model_validate (gen : Gen) (command : CreateRoomCommand) (created_by : Nat) :
    Except PyErr Room :=
  if command.type = RoomType.direct ∧ command.name ≠ none then
    Except.error PyErr.validationError
  else
    Except.ok {
      id := gen.room_id
      created_by := created_by
      type := command.type
      name := command.name
      slug := command.slug
      visibility := command.visibility
      created_at := gen.now }

/-- The member list the handler bulk-inserts: one Member per initial user
bound to the default system role, with the owner member appended last. -/
def handler_members (gen : Gen) (room : Room) (initial_users : List Nat)
    (default_role_id owner_role_id : Nat) : List Member :=
  (initial_users.mapIdx (fun k user =>
    ({ id := gen.member_id_base + k, user_id := user, room_id := room.id,
       role_id := default_role_id } : Member))) ++
  [{ id := gen.member_id_base + initial_users.length, user_id := room.created_by,
     room_id := room.id, role_id := owner_role_id }]

/-- CreateRoomCommandHandler._prepare_outbox_event followed by
outbox_repository.create: the stored row takes its surrogate id and
created_at from the database defaults, the event data from the handler
(RoomCreatedEvent has event_type "room_created" and default status NEW), and
aggregate_type from `created_room.__class__.__name__`. The pydantic
serialization of the snapshot payload is opaque here; its failure modes are
covered by the outbox_insert fault. -/
def prepare_outbox_event (gen : Gen) (room : Room) : OutboxRow :=
  { id := gen.outbox_row_id
    event_id := gen.event_id
    aggregate_id := room.id
    aggregate_type := "Room"
    event_status := EventStatus.new
    retries := 0
    created_at := gen.now
    payload := gen.payload }

/-- The body of CreateRoomCommandHandler.handle, statement by statement, as a
transformer of the pending transaction state. Reads and writes follow the
source order: room insert, owner-role lookup, default-role lookup (through
the room-type map), member bulk insert, role-permission read, outbox append.
The get_role_permissions read joins room_roles rows, which this workflow
never writes, so its successful result is unused by later writes. -/
def handleBody (f : Faults) (gen : Gen) (command : CreateRoomCommand)
    (created_by : Nat) (s : DBState) : Except PyErr (Room × DBState) :=
  match Room_model_validate gen command created_by with
  | Except.error e => Except.error e
  | Except.ok room =>
    match f.room_insert with
    | some e => Except.error e
    | none =>
      let s1 : DBState := { s with rooms := s.rooms ++ [room] }
      match get_by_name s1.roles "owner" with
      | none => Except.error PyErr.attributeError
      | some owner_role =>
        match get_by_name s1.roles (TYPE_TO_SYSTEM_ROLE_MAP room.type).value with
        | none => Except.error PyErr.attributeError
        | some default_system_role =>
          let initial_members :=
            handler_members gen room command.initial_users
              default_system_role.id owner_role.id
          match f.member_bulk_insert with
          | some e => Except.error e
          | none =>
            let s2 : DBState := { s1 with members := s1.members ++ initial_members }
            match f.role_permissions_read with
            | some e => Except.error e
            | none =>
              let outbox_event := prepare_outbox_event gen room
              match f.outbox_insert with
              | some e => Except.error e
              | none =>
                Except.ok (room, { s2 with outbox := s2.outbox ++ [outbox_event] })

/-- handle() inside `async with self.uow.transaction()`: session.begin
commits the pending writes when the block exits cleanly (the handler's own
uow.commit() plus the context-manager commit) and rolls every pending write
back when any exception leaves the block (UnitOfWork.__aexit__). The second
component is the durable state visible after the call. -/
def handle (f : Faults) (gen : Gen) (command : CreateRoomCommand) (created_by : Nat)
    (s : DBState) : Except PyErr Room × DBState :=
  match handleBody f gen command created_by s with
  | Except.ok (room, pending) => (Except.ok room, pending)
  | Except.error e => (Except.error e, s)

/-- The room-creation entry as the API layer drives it: pydantic constructs
the CreateRoomCommand (running validate_initial_users) before any handler or
database work; a ValidationError there stops the request with the storage
untouched. -/
def createRoomFlow (f : Faults) (gen : Gen) (c : CreateRoomCommand) (created_by : Nat)
    (s : DBState) : Except PyErr Room × DBState :=
  match c.validate_initial_users with
  | Except.error e => (Except.error e, s)
  | Except.ok command => handle f gen command created_by s

/-! Concrete instances used by witnesses and counterexamples. -/

/-- A publisher whose publish call always succeeds. -/
def pubAlwaysOk : List Nat → Bool := fun _ => true

/-- A publisher whose publish call always raises FastStreamException. -/
def pubAlwaysFail : List Nat → Bool := fun _ => false

/-- Outbox row in status new, first of a failing batch. -/
def rowN1 : OutboxRow :=
  { id := 101, event_id := 11, aggregate_id := 1, aggregate_type := "Room",
    event_status := EventStatus.new, retries := 0, created_at := 1, payload := 71 }

/-- Outbox row in status new, second of a failing batch. -/
def rowN2 : OutboxRow :=
  { id := 102, event_id := 12, aggregate_id := 1, aggregate_type := "Room",
    event_status := EventStatus.new, retries := 0, created_at := 2, payload := 72 }

/-- Store holding one two-event batch awaiting dispatch. -/
def storeTwoNew : List OutboxRow := [rowN1, rowN2]

/-- Outbox row in status new whose surrogate id (100) differs from its
event_id (200), as the independent uuid4 draws make it. -/
def rowSurrogate : OutboxRow :=
  { id := 100, event_id := 200, aggregate_id := 1, aggregate_type := "Room",
    event_status := EventStatus.new, retries := 0, created_at := 1, payload := 73 }

/-- Store holding one deliverable event. -/
def storeOneNew : List OutboxRow := [rowSurrogate]

/-- Terminally failed outbox row (retries at the maximum), surrogate id 100,
event_id 200. -/
def rowFailed : OutboxRow :=
  { id := 100, event_id := 200, aggregate_id := 1, aggregate_type := "Room",
    event_status := EventStatus.failed, retries := 5, created_at := 1, payload := 74 }

/-- Store holding one failed event for the cleaner. -/
def storeOneFailed : List OutboxRow := [rowFailed]

/-- Pending row whose retries counter has reached MAX_OUTBOX_RETRIES. -/
def rowAtMaxRetries : OutboxRow :=
  { id := 103, event_id := 13, aggregate_id := 1, aggregate_type := "Room",
    event_status := EventStatus.pending, retries := 5, created_at := 3, payload := 75 }

/-- An OutboxEvent instance of the pydantic model. -/
def evRoom : OutboxEvent :=
  { event_id := 1, event_type := "room_created", event_status := EventStatus.new,
    created_at := 10, aggregate_id := 42, aggregate_type := "Room",
    payload := 0, retries := 0 }

/-- A member of room 1 bound to role 5. -/
def memberX : Member := { id := 10, user_id := 1, room_id := 1, role_id := 5 }

/-- The "message:send" Permission reference row as a pydantic object. -/
def permMsgSend : Permission := { id := 20, code := "message:send", category := "message" }

/-- Permission database where role 5 grants "message:send" while member 10
carries a member-level deny override on the same code. -/
def dbDenyOverride : PermissionDB :=
  { members := [memberX]
    role_permissions := [(5, permMsgSend)]
    member_permissions :=
      [{ member_id := 10, permission := permMsgSend,
         status := MemberPermissionStatus.deny }] }

/-- Permission database with no membership rows. -/
def dbNoMembers : PermissionDB :=
  { members := [], role_permissions := [], member_permissions := [] }

/-- Fault profile on which every storage statement succeeds. -/
def fNone : Faults :=
  { room_insert := none, member_bulk_insert := none,
    role_permissions_read := none, outbox_insert := none }

/-- Fault profile whose room insert raises a slug conflict. -/
def fBadRoom : Faults :=
  { room_insert := some PyErr.conflictError, member_bulk_insert := none,
    role_permissions_read := none, outbox_insert := none }

/-- Runtime draws used by the concrete handler runs. -/
def gen0 : Gen :=
  { room_id := 50, now := 7, member_id_base := 300, event_id := 400,
    outbox_row_id := 500, payload := 600 }

/-- A valid group-room command carrying three initial users. -/
def cmdG3 : CreateRoomCommand :=
  { creator_by := 9, name := some "team", slug := some "team",
    type := RoomType.group, visibility := RoomVisibility.publicV,
    initial_users := [1, 2, 3] }

/-- A direct-room command carrying two initial users (invalid). -/
def cmdDirect2 : CreateRoomCommand :=
  { creator_by := 9, name := none, slug := none, type := RoomType.direct,
    visibility := RoomVisibility.privateV, initial_users := [1, 2] }

/-- Database state holding the two system-role rows the handler resolves. -/
def dbRoles : DBState :=
  { rooms := [], roles := [{ id := 60, name := "owner" }, { id := 61, name := "member" }],
    members := [], outbox := [] }

/-- Empty database state. -/
def dbEmptyState : DBState :=
  { rooms := [], roles := [], members := [], outbox := [] }

/-- The room the handler validates out of cmdG3 with the draws of gen0. -/
def roomG3 : Room :=
  { id := 50, created_by := 9, type := RoomType.group, name := some "team",
    slug := some "team", visibility := RoomVisibility.publicV, created_at := 7 }

/-! Theorems settling the claims. -/

/-- C8: the role resolved for initial users is claimed to be "member" for
group and direct rooms and "guest" for channels. The constants map and the
domain rule agree with that, but the match statement of
`Room._define_default_role` resolves no role at all for group and direct
rooms: its first case is a 2-tuple sequence pattern that can never match a
RoomType value, so the function returns None for them and only channels get
a role (guest). -/
theorem c8_default_role_resolution :
    Room_define_default_role RoomType.group = none ∧
    Room_define_default_role RoomType.direct = none ∧
    Room_define_default_role RoomType.channel = some SystemRole.guest ∧
    TYPE_TO_SYSTEM_ROLE_MAP RoomType.group = SystemRole.member ∧
    TYPE_TO_SYSTEM_ROLE_MAP RoomType.direct = SystemRole.member ∧
    TYPE_TO_SYSTEM_ROLE_MAP RoomType.channel = SystemRole.guest ∧
    get_default_system_role_by_room RoomType.group = SystemRole.member ∧
    get_default_system_role_by_room RoomType.direct = SystemRole.member ∧
    get_default_system_role_by_room RoomType.channel = SystemRole.guest := by
  decide

/-- C9: two accesses of dedup_key on the same OutboxEvent instance read the
wall clock at two instants and therefore disagree, although the instance
(and its creation timestamp) is unchanged — dedup_key is not a function of
the event's creation timestamp. -/
theorem c9_dedup_key_not_stable :
    OutboxEvent.dedup_key 10 evRoom ≠ OutboxEvent.dedup_key 11 evRoom ∧
    evRoom.created_at = 10 := by
  decide

/-- C6: a direct-type CreateRoomCommand whose initial_users list has length
different from 1 is rejected by the pydantic model validator with a
ValidationError before any handler or storage work, so every table is left
exactly as it was. -/
theorem c6_direct_invalid_count (f : Faults) (gen : Gen) (c : CreateRoomCommand)
    (created_by : Nat) (s : DBState)
    (htype : c.type = RoomType.direct) (hlen : c.initial_users.length ≠ 1) :
    createRoomFlow f gen c created_by s = (Except.error PyErr.validationError, s) := by
  unfold createRoomFlow CreateRoomCommand.validate_initial_users
  simp [htype, hlen]

/-- Witness for c6_direct_invalid_count at a concrete direct command with
two initial users over the empty database. -/
theorem c6_direct_invalid_count_witness :
    createRoomFlow fNone gen0 cmdDirect2 9 dbEmptyState =
      (Except.error PyErr.validationError, dbEmptyState) :=
  c6_direct_invalid_count fNone gen0 cmdDirect2 9 dbEmptyState (by decide) (by decide)

/-- C5: `Room.create` can never return a room — the constructor argument
list calls `_define_default_role` without its required positional argument,
raising TypeError — so no returned room exhibits member_count = n+1; the
membership half of the claim does hold of the member list the command
handler bulk-inserts: n+1 members of which exactly one is bound to the
owner role. -/
theorem c5_create_room_member_count :
    Room_create 1 cmdG3 9 = Except.error PyErr.typeError ∧
    (handler_members gen0 roomG3 cmdG3.initial_users 61 60).length =
      cmdG3.initial_users.length + 1 ∧
    ((handler_members gen0 roomG3 cmdG3.initial_users 61 60).filter
        (fun m => m.role_id == 60)).length = 1 := by
  refine ⟨rfl, by decide, by decide⟩

/-- C3: a dispatcher cycle over a two-event batch whose publish fails ends
with the store unchanged — both events still in status new with retries 0 —
because bulk_update receives the statuses list as a single positional
argument and raises ValueError on its ids/args length guard; nothing is
marked pending and no retries counter moves. -/
theorem c3_publish_failure_batch :
    process pubAlwaysFail storeTwoNew = (some PyErr.valueError, storeTwoNew) ∧
    (process pubAlwaysFail storeTwoNew).2.map
        (fun r => (r.event_status, r.retries)) =
      [(EventStatus.new, 0), (EventStatus.new, 0)] := by
  decide

/-- C4: a dispatcher cycle whose publish succeeds leaves the published event
in the store: bulk_delete filters on the surrogate primary-key column `id`
while being handed event_id values, so no row matches and nothing is
removed. -/
theorem c4_publish_success_delete :
    process pubAlwaysOk storeOneNew = (none, storeOneNew) ∧
    (process pubAlwaysOk storeOneNew).2.length = 1 := by
  decide

/-- C10: a cleaner cycle over a store holding one failed event deletes
nothing — bulk_delete filters on the surrogate primary-key column `id`
while being handed the event_id — so the failed event survives every
cleaner run. -/
theorem c10_cleanup_failed :
    cleanup storeOneFailed = storeOneFailed ∧
    get_count_by_status OUTBOX_CLEANUP_STATUSES (cleanup storeOneFailed) = 1 := by
  decide

/-- The member-override SELECT always raises: the mis-parenthesised WHERE
clause is the AND of a boolean with the varchar status column and never
types, so the repository surfaces ReadingError for every member id. -/
theorem member_get_permissions_raises (db : PermissionDB) (id : Nat) :
    SQLMemberRepository_get_permissions db id = Except.error PyErr.readingError := rfl

/-- C2: the resolver can never answer true. It returns false when no
membership exists; for any existing membership the member-override query
raises (ReadingError) before any grant or deny is weighed, because its WHERE
clause is the mis-parenthesised ((member_id = :id AND status) = 'grant');
and even past that the code builds set()s of unhashable pydantic Permission
objects (TypeError on any non-empty grant list) and tests the code string
against Permission objects, which are never equal. In particular the deny
case of the claim is never decided and the grant case never yields true. -/
theorem c2_resolver_never_grants :
    (∀ (db : PermissionDB) (room_id user_id : Nat) (code : String),
      has_permission db room_id user_id code ≠ Except.ok true) ∧
    has_permission dbDenyOverride 1 1 "message:send" =
      Except.error PyErr.readingError ∧
    has_permission dbNoMembers 1 1 "message:send" = Except.ok false ∧
    sqlTypeOf (member_permissions_where 10) = none ∧
    pySet [PyValue.permissionObj permMsgSend] = Except.error PyErr.typeError ∧
    pyEq (PyValue.strValue "message:send") (PyValue.permissionObj permMsgSend) =
      false := by
  refine ⟨?_, rfl, rfl, by decide, rfl, by decide⟩
  intro db room_id user_id code h
  unfold has_permission at h
  cases hm : get_by_room_and_user db room_id user_id with
  | none =>
      rw [hm] at h
      simp at h
  | some member =>
      rw [hm] at h
      simp [member_get_permissions_raises] at h

/-- Witness for c2_resolver_never_grants at the deny-override database: even
there the resolver does not answer true. -/
theorem c2_resolver_never_grants_witness :
    has_permission dbDenyOverride 1 1 "message:send" ≠ Except.ok true :=
  c2_resolver_never_grants.1 dbDenyOverride 1 1 "message:send"

/-- Membership through the insertion step of the created_at sort. -/
theorem mem_insertByCreatedAt {x r : OutboxRow} {l : List OutboxRow}
    (h : x ∈ insertByCreatedAt r l) : x = r ∨ x ∈ l := by
  induction l with
  | nil =>
      rw [insertByCreatedAt] at h
      exact Or.inl (List.mem_singleton.mp h)
  | cons a as ih =>
      rw [insertByCreatedAt] at h
      split at h
      · exact List.mem_cons.mp h
      · rcases List.mem_cons.mp h with h | h
        · exact Or.inr (by simp [h])
        · rcases ih h with h | h
          · exact Or.inl h
          · exact Or.inr (List.mem_cons_of_mem a h)

/-- Membership through the created_at sort. -/
theorem mem_sortByCreatedAt {x : OutboxRow} {l : List OutboxRow}
    (h : x ∈ sortByCreatedAt l) : x ∈ l := by
  induction l with
  | nil =>
      rw [sortByCreatedAt] at h
      exact absurd h (List.not_mem_nil x)
  | cons a as ih =>
      rw [sortByCreatedAt] at h
      rcases mem_insertByCreatedAt h with h | h
      · simp [h]
      · exact List.mem_cons_of_mem a (ih h)

/-- A row returned by get_by_status lies in the table and carries one of the
requested statuses. -/
theorem mem_get_by_status {statuses : List EventStatus} {limit page : Nat}
    {s : List OutboxRow} {r : OutboxRow}
    (h : r ∈ get_by_status statuses limit page s) :
    r ∈ s ∧ statuses.contains r.event_status = true := by
  unfold get_by_status at h
  have h1 := List.drop_subset _ _ (List.take_subset _ _ h)
  have h2 := mem_sortByCreatedAt h1
  have h3 := List.mem_filter.mp h2
  exact ⟨h3.1, h3.2⟩

/-- At the dispatcher's call site bulk_update always raises before mutating:
the statuses list arrives as a single positional argument, so either the
ids/args length guard fires (ValueError) or the lone list-typed element
reaches update().values and SQLAlchemy raises, rolling the statement batch
back; the store comes back unchanged either way. -/
theorem bulk_update_single_list_arg (ids : List Nat) (sts : List EventStatus)
    (b : Bool) (s : List OutboxRow) :
    ∃ e, bulk_update ids [UpdateArg.mappingList sts] b s = Except.error (e, s) := by
  unfold bulk_update
  cases ids with
  | nil => exact ⟨PyErr.valueError, by simp⟩
  | cons i rest =>
      cases rest with
      | nil => exact ⟨PyErr.updateError, by simp [List.zip, runUpdates]⟩
      | cons j rest2 => exact ⟨PyErr.valueError, by simp⟩

/-- Each dispatcher page either deletes rows or leaves the store as it was,
so the page loop only ever removes rows. -/
theorem processLoop_sublist (pub : List Nat → Bool) (pages : List Nat)
    (s : List OutboxRow) : ((processLoop pub pages s).2).Sublist s := by
  induction pages generalizing s with
  | nil => simp [processLoop]
  | cons p rest ih =>
      rw [processLoop]
      split
      · exact (ih (bulk_delete _ s)).trans (List.filter_sublist s)
      · obtain ⟨e, he⟩ := bulk_update_single_list_arg
          ((get_by_status OUTBOX_PROCESSOR_STATUSES OUTBOX_PROCESSOR_BATCH_SIZE p s).map
            (fun r => r.event_id))
          ((get_by_status OUTBOX_PROCESSOR_STATUSES OUTBOX_PROCESSOR_BATCH_SIZE p s).map
            (fun _ => EventStatus.pending)) true s
        simp only [he]
        exact List.Sublist.refl s

/-- A dispatcher cycle only ever removes rows from the store: every row of
the resulting store is literally a row of the starting store. -/
theorem process_sublist (pub : List Nat → Bool) (s : List OutboxRow) :
    ((process pub s).2).Sublist s := by
  unfold process
  by_cases h0 : total_pages (get_count_by_status OUTBOX_PROCESSOR_STATUSES s)
      OUTBOX_PROCESSOR_BATCH_SIZE = 0
  · simp [h0]
  · simp only [h0, if_false]
    exact processLoop_sublist pub _ s

/-- C7: the after-update listener turns any row whose retries counter has
reached MAX_OUTBOX_RETRIES into status failed; the dispatcher's selection
query asks only for statuses new and pending, so no failed row is ever
returned to it; and a dispatcher cycle only deletes rows, so every failed
row still present after a cycle is bit-for-bit the row that was there
before — its status and retries are never changed again. -/
theorem c7_failed_terminal :
    (∀ r : OutboxRow, MAX_OUTBOX_RETRIES ≤ r.retries →
      (set_failed_status_after_update r).event_status = EventStatus.failed) ∧
    (∀ (limit page : Nat) (s : List OutboxRow) (r : OutboxRow),
      r ∈ get_by_status OUTBOX_PROCESSOR_STATUSES limit page s →
      r.event_status ≠ EventStatus.failed) ∧
    (∀ (pub : List Nat → Bool) (s : List OutboxRow),
      ((process pub s).2).Sublist s) := by
  refine ⟨?_, ?_, ?_⟩
  · intro r h
    unfold set_failed_status_after_update
    by_cases hst : r.event_status = EventStatus.failed
    · simp [h, hst]
    · simp [h, hst]
  · intro limit page s r h hf
    have hc := (mem_get_by_status h).2
    rw [hf] at hc
    exact absurd hc (by decide)
  · exact process_sublist

/-- Witness for c7_failed_terminal: the listener retires a concrete row at
the maximum retries; a concrete new row selected by the dispatcher is not
failed; and a concrete cycle output is a sublist of its input. -/
theorem c7_failed_terminal_witness :
    (set_failed_status_after_update rowAtMaxRetries).event_status = EventStatus.failed ∧
    rowN1.event_status ≠ EventStatus.failed ∧
    ((process pubAlwaysOk storeOneNew).2).Sublist storeOneNew :=
  ⟨c7_failed_terminal.1 rowAtMaxRetries (by decide),
   c7_failed_terminal.2.1 32 1 [rowN1] rowN1 (by decide),
   c7_failed_terminal.2.2 pubAlwaysOk storeOneNew⟩

/-- When the handler body runs to its end, the pending transaction state
holds the starting outbox extended by exactly the one event prepared for the
returned room, and the other tables extended by exactly the new room and its
member rows. -/
theorem handleBody_ok_state {f : Faults} {gen : Gen} {command : CreateRoomCommand}
    {created_by : Nat} {s : DBState} {room : Room} {pending : DBState}
    (h : handleBody f gen command created_by s = Except.ok (room, pending)) :
    pending.outbox = s.outbox ++ [prepare_outbox_event gen room] ∧
    pending.rooms = s.rooms ++ [room] := by
  unfold handleBody at h
  dsimp only at h
  cases hv : Room_model_validate gen command created_by with
  | error e =>
      simp only [hv] at h
      exact Except.noConfusion h
  | ok room1 =>
    simp only [hv] at h
    cases hri : f.room_insert with
    | some e =>
        simp only [hri] at h
        exact Except.noConfusion h
    | none =>
      simp only [hri] at h
      cases ho : get_by_name s.roles "owner" with
      | none =>
          simp only [ho] at h
          exact Except.noConfusion h
      | some owner_role =>
        simp only [ho] at h
        cases hd : get_by_name s.roles (TYPE_TO_SYSTEM_ROLE_MAP room1.type).value with
        | none =>
            simp only [hd] at h
            exact Except.noConfusion h
        | some default_role =>
          simp only [hd] at h
          cases hmb : f.member_bulk_insert with
          | some e =>
              simp only [hmb] at h
              exact Except.noConfusion h
          | none =>
            simp only [hmb] at h
            cases hrp : f.role_permissions_read with
            | some e =>
                simp only [hrp] at h
                exact Except.noConfusion h
            | none =>
              simp only [hrp] at h
              cases hoi : f.outbox_insert with
              | some e =>
                  simp only [hoi] at h
                  exact Except.noConfusion h
              | none =>
                simp only [hoi, Except.ok.injEq, Prod.mk.injEq] at h
                obtain ⟨h1, h2⟩ := h
                subst h1
                subst h2
                exact ⟨rfl, rfl⟩

/-- C1: the orchestrated creation transaction is atomic. Whenever any of its
statements raises — room insert, role resolution, member bulk insert,
role-permission lookup or outbox append — the durable state after the call
is exactly the state before it (no Room, Member or OutboxEvent row
persists); and when the call returns a room, the durable outbox is the old
outbox plus exactly one row, in status new, keyed to the new room. -/
theorem c1_transaction_atomicity (f : Faults) (gen : Gen)
    (command : CreateRoomCommand) (created_by : Nat) (s : DBState) :
    (∀ e : PyErr, (handle f gen command created_by s).1 = Except.error e →
      (handle f gen command created_by s).2 = s) ∧
    (∀ room : Room, (handle f gen command created_by s).1 = Except.ok room →
      (handle f gen command created_by s).2.outbox =
        s.outbox ++ [prepare_outbox_event gen room] ∧
      (prepare_outbox_event gen room).event_status = EventStatus.new ∧
      (prepare_outbox_event gen room).aggregate_id = room.id) := by
  constructor
  · intro e he
    unfold handle at he ⊢
    cases hb : handleBody f gen command created_by s with
    | ok p =>
        obtain ⟨room0, pending⟩ := p
        rw [hb] at he
        simp at he
    | error e2 => rfl
  · intro room hr
    unfold handle at hr ⊢
    cases hb : handleBody f gen command created_by s with
    | error e2 =>
        rw [hb] at hr
        simp at hr
    | ok p =>
        obtain ⟨room0, pending⟩ := p
        rw [hb] at hr
        simp at hr
        subst hr
        exact ⟨(handleBody_ok_state hb).1, rfl, rfl⟩

/-- Witness for c1_transaction_atomicity: a concrete run whose room insert
raises a slug conflict leaves the database exactly as it was, and a concrete
clean run extends the outbox by the one status-new event of the created
room. -/
theorem c1_transaction_atomicity_witness :
    (handle fBadRoom gen0 cmdG3 9 dbRoles).2 = dbRoles ∧
    ((handle fNone gen0 cmdG3 9 dbRoles).2.outbox =
        dbRoles.outbox ++ [prepare_outbox_event gen0 roomG3] ∧
      (prepare_outbox_event gen0 roomG3).event_status = EventStatus.new ∧
      (prepare_outbox_event gen0 roomG3).aggregate_id = roomG3.id) :=
  ⟨(c1_transaction_atomicity fBadRoom gen0 cmdG3 9 dbRoles).1 PyErr.conflictError rfl,
   (c1_transaction_atomicity fNone gen0 cmdG3 9 dbRoles).2 roomG3 rfl⟩

end RoomsService
